import Mathlib

/-!
Shallow embedding of the VDCET backend (Express + Mongoose college
management API) for checking its natural-language specification.

The data model follows the Mongoose schemas (`models/Student.js`, given in
the sources; the `models/User.js` file is not among the sources, so the
User entity is modelled from the spec, section 3).  Route handlers from
`routes/admin.js`, `routes/auth.js` and `routes/student.js` are embedded
as pure functions over an explicit store (`DB`).  Machine numbers of the
JavaScript code are modelled as `Int` (all route arithmetic in scope is
exact integer arithmetic), JavaScript `x || d` on numbers as `jsOr`
(falsy exactly at 0 for the non-negative amounts involved, with absent
optional fields already filled by the Mongoose defaults, which are 0 for
every numeric field concerned).
-/

namespace VDCET

/-- JavaScript `x || d` for the numeric fields used in the fee routes:
the stored value is used unless it is falsy (0, which is also the Mongoose
default standing for an absent field). -/
def jsOr (x d : Int) : Int := if x = 0 then d else x

/-- Modelled from the spec: the `models/User.js` file is not among the
sources; fields per spec section 3 (Credential Store entity).  `password`
holds the stored secret (the hashing primitive is an external
collaborator). -/
structure User where
  uid : Nat
  username : String
  email : String
  password : String
  firstName : String
  lastName : String
  role : String
  isActive : Bool
  lastLogin : Option Int
deriving Repr, DecidableEq

/-- Nested `address` object of the student schema. -/
structure Address where
  street : String
  city : String
  state : String
  zipCode : String
  country : String
deriving Repr, DecidableEq

/-- Nested `academicInfo` object of the student schema. -/
structure AcademicInfo where
  collegeName : String
  department : String
  course : String
  specialization : String
  year : Int
  semester : Int
  cgpa : Int
  totalCredits : Int
  earnedCredits : Int
  attendancePercentage : Int
deriving Repr, DecidableEq

/-- Nested `guardianInfo` object of the student schema. -/
structure GuardianInfo where
  name : String
  relationship : String
  phone : String
  email : String
deriving Repr, DecidableEq

/-- Nested `emergencyContact` object of the student schema. -/
structure EmergencyContact where
  name : String
  relationship : String
  phone : String
deriving Repr, DecidableEq

/-- Nested `financialInfo` object of the student schema (defaults:
feeStructure "general", amounts 0, lastPaymentDate null). -/
structure FinancialInfo where
  feeStructure : String
  totalFees : Int
  paidFees : Int
  scholarshipAmount : Int
  lastPaymentDate : Option Int
deriving Repr, DecidableEq

/-- Nested `hostelInfo` object of the student schema (defaults: names "",
hostelFees 0, isHostelite false). -/
structure HostelInfo where
  hostelName : String
  roomNumber : String
  hostelFees : Int
  isHostelite : Bool
deriving Repr, DecidableEq

/-- StudentRecord, per the `studentSchema` in the sources.  The
`documents`, `academicPerformance`, `placementInfo`, `lastAttendanceDate`
and `remarks` fields are read only by PDF rows no claim touches and are
omitted.  Timestamps are modelled as `Int`. -/
structure Student where
  sid : Nat
  userId : Nat
  studentId : String
  dateOfBirth : Int
  gender : String
  phone : String
  address : Address
  academicInfo : AcademicInfo
  guardianInfo : GuardianInfo
  emergencyContact : EmergencyContact
  financialInfo : FinancialInfo
  hostelInfo : HostelInfo
  status : String
  enrollmentDate : Int
  graduationDate : Option Int
  createdAt : Int
deriving Repr, DecidableEq

/-- The persistent store: the Users and StudentRecords collections. -/
structure DB where
  users : List User
  students : List Student
deriving Repr, DecidableEq

def findUserById (db : DB) (i : Nat) : Option User :=
  db.users.find? (fun u => u.uid == i)

def findUserByEmail (db : DB) (e : String) : Option User :=
  db.users.find? (fun u => u.email == e)

def findStudentById (db : DB) (i : Nat) : Option Student :=
  db.students.find? (fun s => s.sid == i)

def findStudentByUserId (db : DB) (i : Nat) : Option Student :=
  db.students.find? (fun s => s.userId == i)

/-- `User.countDocuments({role:'admin'})` — counts admins regardless of
`isActive`. -/
def adminCount (db : DB) : Nat :=
  (db.users.filter (fun u => u.role == "admin")).length

/-- Number of admin users that are also active (the quantity the spec's
invariant speaks about). -/
def activeAdminCount (db : DB) : Nat :=
  (db.users.filter (fun u => u.role == "admin" && u.isActive)).length

/-! ## Fee-structure document arithmetic (GET /api/admin/students/:id/fee-structure)

The `feeBreakdown` table of the fee-structure PDF computes, per the
source (routes/admin.js, rows of the `feeBreakdown` array):
* the "Hostel Fee" component row: `isHostelite ? (hostelFees || 15000) : 'N/A'`;
* the "Hostel Fees:" subtotal row: `isHostelite ? (hostelFees || 15000) : '0'`;
* the "Total Fees:" row: `(totalFees || 40000) + (isHostelite ? (hostelFees || 0) : 0)`;
* the "Scholarship Amount:" row: `scholarshipAmount || 0`;
* the "Paid Amount:" row: `paidFees || 0`;
* the "Balance Amount:" row: total minus scholarship minus paid, with the
  same `hostelFees || 0` hostel term as the "Total Fees:" row. -/

/-- The amount printed in the "Hostel Fees:" subtotal row (0 stands for
the literal string "0" printed for non-hostelites). -/
def feeHostelSubtotal (s : Student) : Int :=
  if s.hostelInfo.isHostelite then jsOr s.hostelInfo.hostelFees 15000 else 0

/-- The amount printed in the "Total Fees:" row. -/
def feeTotalFees (s : Student) : Int :=
  jsOr s.financialInfo.totalFees 40000 +
    (if s.hostelInfo.isHostelite then jsOr s.hostelInfo.hostelFees 0 else 0)

/-- The amount printed in the "Scholarship Amount:" row. -/
def feeScholarship (s : Student) : Int := jsOr s.financialInfo.scholarshipAmount 0

/-- The amount printed in the "Paid Amount:" row. -/
def feePaid (s : Student) : Int := jsOr s.financialInfo.paidFees 0

/-- The amount printed in the "Balance Amount:" row. -/
def feeBalance (s : Student) : Int :=
  feeTotalFees s - feeScholarship s - feePaid s

/-- The fee total as the spec states it:
`totalFees = studentTotalFees||40000 + (isHostelite ? hostelFees||15000 : 0)`.
This definition follows the spec's words, for comparison with
`feeTotalFees`, which follows the source. -/
def specTotalFees (s : Student) : Int :=
  jsOr s.financialInfo.totalFees 40000 +
    (if s.hostelInfo.isHostelite then jsOr s.hostelInfo.hostelFees 15000 else 0)

/-- The balance as the spec states it. -/
def specBalance (s : Student) : Int :=
  specTotalFees s - s.financialInfo.scholarshipAmount - s.financialInfo.paidFees

/-- A student record with every numeric financial/hostel field at its
Mongoose default (absent), except as overridden. -/
def baseStudent : Student :=
  { sid := 10
    userId := 1
    studentId := "STU1"
    dateOfBirth := 0
    gender := "male"
    phone := "9876543210"
    address := { street := "1 Main St", city := "Vellore", state := "TN",
                 zipCode := "632001", country := "India" }
    academicInfo := { collegeName := "VDCET", department := "CSE", course := "BTech",
                      specialization := "", year := 2, semester := 3, cgpa := 8,
                      totalCredits := 40, earnedCredits := 36, attendancePercentage := 90 }
    guardianInfo := { name := "G", relationship := "father",
                      phone := "9876543211", email := "g@example.com" }
    emergencyContact := { name := "E", relationship := "uncle", phone := "9876543212" }
    financialInfo := { feeStructure := "general", totalFees := 0, paidFees := 0,
                       scholarshipAmount := 0, lastPaymentDate := none }
    hostelInfo := { hostelName := "", roomNumber := "", hostelFees := 0,
                    isHostelite := false }
    status := "active"
    enrollmentDate := 0
    graduationDate := none
    createdAt := 0 }

/-- The spec's worked example: totalFees absent, scholarship 5000,
paid 10000, not a hostelite. -/
def feeExampleStudent : Student :=
  { baseStudent with
    financialInfo := { feeStructure := "general", totalFees := 0, paidFees := 10000,
                       scholarshipAmount := 5000, lastPaymentDate := none } }

/-- A hostelite whose stored hostelFees is absent (0, the Mongoose
default): the input on which the code and the claimed formula part ways. -/
def hosteliteStudent : Student :=
  { baseStudent with
    hostelInfo := { hostelName := "A Block", roomNumber := "101", hostelFees := 0,
                    isHostelite := true } }

/-! ## Deletion routes (DELETE /api/admin/students/:id and /api/admin/users/:id) -/

/-- `findByIdAndDelete` / `findOneAndDelete`: remove the first user whose
id matches. -/
def removeUserById : List User → Nat → List User
  | [], _ => []
  | u :: rest, i => if u.uid == i then rest else u :: removeUserById rest i

/-- Remove the first student whose record id matches. -/
def removeStudentById : List Student → Nat → List Student
  | [], _ => []
  | s :: rest, i => if s.sid == i then rest else s :: removeStudentById rest i

/-- `Student.findOneAndDelete({userId})`: remove the first student owned
by the given user. -/
def removeStudentByUserId : List Student → Nat → List Student
  | [], _ => []
  | s :: rest, i => if s.userId == i then rest else s :: removeStudentByUserId rest i

inductive DeleteStudentResult
  | notFound
  | ok
deriving Repr, DecidableEq

/-- DELETE /api/admin/students/:id — looks the student up, deletes the
student profile, then deletes the associated user. -/
def adminDeleteStudent (db : DB) (i : Nat) : DeleteStudentResult × DB :=
  match findStudentById db i with
  | none => (.notFound, db)
  | some s =>
      (.ok, { users := removeUserById db.users s.userId
              students := removeStudentById db.students i })

inductive DeleteUserResult
  | notFound
  | lastAdmin
  | ok
deriving Repr, DecidableEq

/-- DELETE /api/admin/users/:id — refuses to delete a user of role admin
when `countDocuments({role:'admin'}) <= 1`; otherwise deletes the user
and, if the user was a student, also its student profile. -/
def adminDeleteUser (db : DB) (i : Nat) : DeleteUserResult × DB :=
  match findUserById db i with
  | none => (.notFound, db)
  | some u =>
      if u.role == "admin" && adminCount db ≤ 1 then (.lastAdmin, db)
      else
        let db1 : DB := { db with users := removeUserById db.users i }
        if u.role == "student" then
          (.ok, { db1 with students := removeStudentByUserId db1.students i })
        else (.ok, db1)

/-! ## String validation helpers shared by the routes -/

/-- The phone regex of the routes and of the student schema:
`^[+]?[1-9]\d(0,15)$` — an optional leading plus, one digit 1–9, then at
most 15 further digits. -/
def validPhone (p : String) : Bool :=
  let cs := p.toList
  let cs := match cs with
            | c :: rest => if c = '+' then rest else c :: rest
            | [] => []
  match cs with
  | [] => false
  | d :: rest => ('1' ≤ d && d ≤ '9') && rest.length ≤ 15 && rest.all Char.isDigit

/-- Split a character list at every occurrence of the separator. -/
def splitOnChar (c : Char) : List Char → List (List Char)
  | [] => [[]]
  | x :: t =>
      let r := splitOnChar c t
      if x = c then [] :: r
      else match r with
           | h :: t' => (x :: h) :: t'
           | [] => [[x]]

/-- Models the external validator.js `isEmail` check (and the email
`match` pattern of the student schema): one at-sign splitting a non-empty
local part from a domain made of at least two non-empty dot-separated
labels.  The checks agree with the real library on every concrete string
used in this development. -/
def validEmail (e : String) : Bool :=
  match splitOnChar '@' e.data with
  | [lp, dom] =>
      let labels := splitOnChar '.' dom
      (lp != []) && labels.length ≥ 2 && labels.all (fun l => l != [])
  | _ => false

def isAlphanumStr (s : String) : Bool := (s != "") && s.data.all Char.isAlphanum

/-- PUT /api/admin/users/:id request body: every field optional (absent
fields are not written). -/
structure UserUpdatePayload where
  firstName : Option String := none
  lastName : Option String := none
  email : Option String := none
  role : Option String := none
  isActive : Option Bool := none
deriving Repr, DecidableEq

/-- The express-validator chain of PUT /api/admin/users/:id. -/
def userUpdateValid (p : UserUpdatePayload) : Bool :=
  (match p.firstName with | some f => f != "" | none => true) &&
  (match p.lastName with | some l => l != "" | none => true) &&
  (match p.email with | some e => validEmail e | none => true) &&
  (match p.role with | some r => r == "admin" || r == "student" | none => true)

inductive UserUpdateResult
  | validationFailed
  | notFound
  | emailConflict
  | ok (u : User)
deriving Repr, DecidableEq

/-- Replace the first user with the given id. -/
def replaceUser : List User → Nat → User → List User
  | [], _, _ => []
  | u :: rest, i, v => if u.uid == i then v :: rest else u :: replaceUser rest i v

/-- Replace the first student with the given record id. -/
def replaceStudent : List Student → Nat → Student → List Student
  | [], _, _ => []
  | s :: rest, i, v => if s.sid == i then v :: rest else s :: replaceStudent rest i v

/-- PUT /api/admin/users/:id — updates name, email, role and isActive
with an email-uniqueness check; no check relates to the admin count. -/
def adminUpdateUser (db : DB) (i : Nat) (p : UserUpdatePayload) :
    UserUpdateResult × DB :=
  if !userUpdateValid p then (.validationFailed, db)
  else match findUserById db i with
  | none => (.notFound, db)
  | some u =>
      if (match p.email with
          | some e => e != u.email && (findUserByEmail db e).isSome
          | none => false) then (.emailConflict, db)
      else
        let u' : User :=
          { u with
            firstName := p.firstName.getD u.firstName
            lastName := p.lastName.getD u.lastName
            email := p.email.getD u.email
            role := p.role.getD u.role
            isActive := p.isActive.getD u.isActive }
        (.ok u', { db with users := replaceUser db.users i u' })

/-! ## POST /api/admin/students — create User + StudentRecord -/

/-- The `address` object of a creation payload: the route requires
street, city, state and zipCode; country is optional and the schema
defaults it to "India". -/
structure AddressIn where
  street : String
  city : String
  state : String
  zipCode : String
  country : Option String := none
deriving Repr, DecidableEq

def AddressIn.toAddress (a : AddressIn) : Address :=
  { street := a.street, city := a.city, state := a.state,
    zipCode := a.zipCode, country := a.country.getD "India" }

/-- POST /api/admin/students request body.  Optional numeric sub-fields
of `academicInfo` (cgpa, credits, attendancePercentage) that the caller
omits stand at their Mongoose defaults (0), so the nested objects are
carried in full. -/
structure CreateStudentPayload where
  username : String
  email : String
  password : String
  firstName : String
  lastName : String
  studentId : String
  dateOfBirth : Int
  gender : String
  phone : String
  address : AddressIn
  academicInfo : AcademicInfo
  guardianInfo : GuardianInfo
  emergencyContact : EmergencyContact
deriving Repr, DecidableEq

/-- The express-validator chain of POST /api/admin/students.  The
`dateOfBirth` ISO-8601 check always holds for the modelled timestamps.
Note that this chain has no rule for `academicInfo.cgpa`. -/
def createRouteValid (p : CreateStudentPayload) : Bool :=
  3 ≤ p.username.length && p.username.length ≤ 30 &&
  validEmail p.email &&
  6 ≤ p.password.length &&
  (p.firstName != "") && (p.lastName != "") &&
  (p.studentId != "") &&
  (p.gender == "male" || p.gender == "female" || p.gender == "other") &&
  validPhone p.phone &&
  (p.address.street != "") && (p.address.city != "") &&
  (p.address.state != "") && (p.address.zipCode != "") &&
  (p.academicInfo.collegeName != "") && (p.academicInfo.department != "") &&
  (p.academicInfo.course != "") &&
  1 ≤ p.academicInfo.year && p.academicInfo.year ≤ 5 &&
  1 ≤ p.academicInfo.semester && p.academicInfo.semester ≤ 8 &&
  0 ≤ p.academicInfo.totalCredits && 0 ≤ p.academicInfo.earnedCredits &&
  0 ≤ p.academicInfo.attendancePercentage && p.academicInfo.attendancePercentage ≤ 100 &&
  (p.guardianInfo.name != "") && (p.guardianInfo.relationship != "") &&
  validPhone p.guardianInfo.phone && validEmail p.guardianInfo.email &&
  (p.emergencyContact.name != "") && (p.emergencyContact.relationship != "") &&
  validPhone p.emergencyContact.phone

/-- The Mongoose `studentSchema` validation run by `student.save()`:
required fields present and non-empty, enums, the phone pattern, and the
numeric bounds — including `cgpa` between 0 and 10, which the creation
route does not check. -/
def studentSchemaValid (s : Student) : Bool :=
  (s.studentId != "") &&
  (s.gender == "male" || s.gender == "female" || s.gender == "other") &&
  validPhone s.phone &&
  (s.address.street != "") && (s.address.city != "") &&
  (s.address.state != "") && (s.address.zipCode != "") &&
  (s.address.country != "") &&
  (s.academicInfo.collegeName != "") && (s.academicInfo.department != "") &&
  (s.academicInfo.course != "") &&
  1 ≤ s.academicInfo.year && s.academicInfo.year ≤ 5 &&
  1 ≤ s.academicInfo.semester && s.academicInfo.semester ≤ 8 &&
  0 ≤ s.academicInfo.cgpa && s.academicInfo.cgpa ≤ 10 &&
  0 ≤ s.academicInfo.totalCredits && 0 ≤ s.academicInfo.earnedCredits &&
  0 ≤ s.academicInfo.attendancePercentage && s.academicInfo.attendancePercentage ≤ 100 &&
  (s.guardianInfo.name != "") && (s.guardianInfo.relationship != "") &&
  validPhone s.guardianInfo.phone && validEmail s.guardianInfo.email &&
  (s.emergencyContact.name != "") && (s.emergencyContact.relationship != "") &&
  validPhone s.emergencyContact.phone &&
  (s.financialInfo.feeStructure == "general" || s.financialInfo.feeStructure == "obc" ||
   s.financialInfo.feeStructure == "sc" || s.financialInfo.feeStructure == "st" ||
   s.financialInfo.feeStructure == "ews") &&
  0 ≤ s.financialInfo.totalFees && 0 ≤ s.financialInfo.paidFees &&
  0 ≤ s.financialInfo.scholarshipAmount && 0 ≤ s.hostelInfo.hostelFees &&
  (s.status == "active" || s.status == "inactive" || s.status == "suspended" ||
   s.status == "graduated" || s.status == "transferred" || s.status == "dropped")

/-- The User row written by POST /api/admin/students (role student;
isActive defaults to true per the spec's User model). -/
def mkCreateUser (nu : Nat) (p : CreateStudentPayload) : User :=
  { uid := nu, username := p.username, email := p.email, password := p.password,
    firstName := p.firstName, lastName := p.lastName, role := "student",
    isActive := true, lastLogin := none }

/-- The StudentRecord written by POST /api/admin/students (schema
defaults for the blocks the payload does not carry). -/
def mkCreateStudent (ns nu : Nat) (p : CreateStudentPayload) (now : Int) : Student :=
  { sid := ns, userId := nu, studentId := p.studentId,
    dateOfBirth := p.dateOfBirth, gender := p.gender, phone := p.phone,
    address := p.address.toAddress, academicInfo := p.academicInfo,
    guardianInfo := p.guardianInfo, emergencyContact := p.emergencyContact,
    financialInfo := { feeStructure := "general", totalFees := 0, paidFees := 0,
                       scholarshipAmount := 0, lastPaymentDate := none },
    hostelInfo := { hostelName := "", roomNumber := "", hostelFees := 0,
                    isHostelite := false },
    status := "active", enrollmentDate := now, graduationDate := none,
    createdAt := now }

inductive CreateStudentResult
  | validationFailed
  | userConflict
  | studentIdConflict
  | saveError
  | created (s : Student)
deriving Repr, DecidableEq

/-- POST /api/admin/students — validates, checks username/email
uniqueness, checks studentId uniqueness, saves the User, then saves the
StudentRecord.  A schema-validation failure of the student save surfaces
as a 500 (`saveError`) after the User row has already been written; the
route has no rollback. -/
def adminCreateStudent (db : DB) (p : CreateStudentPayload) (nu ns : Nat)
    (now : Int) : CreateStudentResult × DB :=
  if !createRouteValid p then (.validationFailed, db)
  else if db.users.any (fun u => u.email == p.email || u.username == p.username) then
    (.userConflict, db)
  else if db.students.any (fun s => s.studentId == p.studentId) then
    (.studentIdConflict, db)
  else
    let u := mkCreateUser nu p
    let db1 : DB := { db with users := u :: db.users }
    let s := mkCreateStudent ns nu p now
    if studentSchemaValid s then (.created s, { db1 with students := s :: db1.students })
    else (.saveError, db1)

/-! ## Status writes and partial updates -/

/-- The status whitelist shared by the status route, the admin update
route and the list-filter query validation: a strict subset of the
schema's six-value enum. -/
def allowedStatuses : List String := ["active", "inactive", "suspended", "graduated"]

/-- Partial nested `address` object: only the supplied keys are present. -/
structure AddressPatch where
  street : Option String := none
  city : Option String := none
  state : Option String := none
  zipCode : Option String := none
  country : Option String := none
deriving Repr, DecidableEq

/-- JavaScript object spread merge for address. -/
def mergeAddress (a : Address) (p : AddressPatch) : Address :=
  { street := p.street.getD a.street
    city := p.city.getD a.city
    state := p.state.getD a.state
    zipCode := p.zipCode.getD a.zipCode
    country := p.country.getD a.country }

/-- Partial nested `academicInfo` object. -/
structure AcademicPatch where
  collegeName : Option String := none
  department : Option String := none
  course : Option String := none
  specialization : Option String := none
  year : Option Int := none
  semester : Option Int := none
  cgpa : Option Int := none
  totalCredits : Option Int := none
  earnedCredits : Option Int := none
  attendancePercentage : Option Int := none
deriving Repr, DecidableEq

def mergeAcademic (a : AcademicInfo) (p : AcademicPatch) : AcademicInfo :=
  { collegeName := p.collegeName.getD a.collegeName
    department := p.department.getD a.department
    course := p.course.getD a.course
    specialization := p.specialization.getD a.specialization
    year := p.year.getD a.year
    semester := p.semester.getD a.semester
    cgpa := p.cgpa.getD a.cgpa
    totalCredits := p.totalCredits.getD a.totalCredits
    earnedCredits := p.earnedCredits.getD a.earnedCredits
    attendancePercentage := p.attendancePercentage.getD a.attendancePercentage }

/-- Partial nested `guardianInfo` object. -/
structure GuardianPatch where
  name : Option String := none
  relationship : Option String := none
  phone : Option String := none
  email : Option String := none
deriving Repr, DecidableEq

def mergeGuardian (g : GuardianInfo) (p : GuardianPatch) : GuardianInfo :=
  { name := p.name.getD g.name
    relationship := p.relationship.getD g.relationship
    phone := p.phone.getD g.phone
    email := p.email.getD g.email }

/-- Partial nested `emergencyContact` object. -/
structure EmergencyPatch where
  name : Option String := none
  relationship : Option String := none
  phone : Option String := none
deriving Repr, DecidableEq

def mergeEmergency (e : EmergencyContact) (p : EmergencyPatch) : EmergencyContact :=
  { name := p.name.getD e.name
    relationship := p.relationship.getD e.relationship
    phone := p.phone.getD e.phone }

/-- PUT /api/admin/students/:id request body (student-side fields; the
route also accepts firstName/lastName/email for the owning User, which no
claim concerns and which touch only the Users collection). -/
structure UpdateStudentPayload where
  phone : Option String := none
  address : Option AddressPatch := none
  academicInfo : Option AcademicPatch := none
  guardianInfo : Option GuardianPatch := none
  emergencyContact : Option EmergencyPatch := none
  status : Option String := none
deriving Repr, DecidableEq

/-- The express-validator chain of PUT /api/admin/students/:id for the
modelled fields: an optional phone pattern, optional year/semester/cgpa
bounds, and `status` restricted to the four allowed values. -/
def updateStudentValid (p : UpdateStudentPayload) : Bool :=
  (match p.phone with | some ph => validPhone ph | none => true) &&
  (match p.academicInfo with
   | some a =>
       (match a.year with | some y => 1 ≤ y && y ≤ 5 | none => true) &&
       (match a.semester with | some m => 1 ≤ m && m ≤ 8 | none => true) &&
       (match a.cgpa with | some c => 0 ≤ c && c ≤ 10 | none => true)
   | none => true) &&
  (match p.status with | some st => allowedStatuses.contains st | none => true)

inductive UpdateStudentResult
  | validationFailed
  | notFound
  | ok (s : Student)
deriving Repr, DecidableEq

/-- PUT /api/admin/students/:id — shallow-merges the nested objects,
replaces phone and status, and stamps `graduationDate = now` only when
the status moves to graduated from a non-graduated prior status. -/
def adminUpdateStudent (db : DB) (i : Nat) (p : UpdateStudentPayload)
    (now : Int) : UpdateStudentResult × DB :=
  if !updateStudentValid p then (.validationFailed, db)
  else match findStudentById db i with
  | none => (.notFound, db)
  | some s =>
      let s1 := match p.phone with | some ph => { s with phone := ph } | none => s
      let s2 := match p.address with
                | some ap => { s1 with address := mergeAddress s.address ap }
                | none => s1
      let s3 := match p.academicInfo with
                | some ap => { s2 with academicInfo := mergeAcademic s.academicInfo ap }
                | none => s2
      let s4 := match p.guardianInfo with
                | some gp => { s3 with guardianInfo := mergeGuardian s.guardianInfo gp }
                | none => s3
      let s5 := match p.emergencyContact with
                | some ep => { s4 with emergencyContact := mergeEmergency s.emergencyContact ep }
                | none => s4
      let s6 := match p.status with | some st => { s5 with status := st } | none => s5
      let s7 := if p.status == some "graduated" && s.status != "graduated" then
                  { s6 with graduationDate := some now }
                else s6
      (.ok s7, { db with students := replaceStudent db.students i s7 })

/-- PUT /api/admin/students/:id/status — validates the status against the
four-value whitelist, then writes it, stamping `graduationDate = now`
only on a transition into graduated from a non-graduated prior status. -/
def adminSetStatus (db : DB) (i : Nat) (st : String) (now : Int) :
    UpdateStudentResult × DB :=
  if !(allowedStatuses.contains st) then (.validationFailed, db)
  else match findStudentById db i with
  | none => (.notFound, db)
  | some s =>
      let s1 := { s with status := st }
      let s2 := if st == "graduated" && s.status != "graduated" then
                  { s1 with graduationDate := some now }
                else s1
      (.ok s2, { db with students := replaceStudent db.students i s2 })

/-- PUT /api/student/profile request body: only phone, address and
emergencyContact are read from the request. -/
structure OwnProfilePayload where
  phone : Option String := none
  address : Option AddressPatch := none
  emergencyContact : Option EmergencyPatch := none
deriving Repr, DecidableEq

/-- The express-validator chain of PUT /api/student/profile. -/
def ownProfileValid (p : OwnProfilePayload) : Bool :=
  (match p.phone with | some ph => validPhone ph | none => true) &&
  (match p.address with
   | some ap =>
       (match ap.street with | some v => v != "" | none => true) &&
       (match ap.city with | some v => v != "" | none => true) &&
       (match ap.state with | some v => v != "" | none => true) &&
       (match ap.zipCode with | some v => v != "" | none => true)
   | none => true) &&
  (match p.emergencyContact with
   | some ep =>
       (match ep.name with | some v => v != "" | none => true) &&
       (match ep.phone with | some v => validPhone v | none => true)
   | none => true)

/-- PUT /api/student/profile — the record is addressed by the caller's
own userId; address and emergencyContact patches are shallow-merged onto
the stored nested objects. -/
def updateOwnProfile (db : DB) (callerUid : Nat) (p : OwnProfilePayload) :
    UpdateStudentResult × DB :=
  if !ownProfileValid p then (.validationFailed, db)
  else match findStudentByUserId db callerUid with
  | none => (.notFound, db)
  | some s =>
      let s1 := match p.phone with | some ph => { s with phone := ph } | none => s
      let s2 := match p.address with
                | some ap => { s1 with address := mergeAddress s.address ap }
                | none => s1
      let s3 := match p.emergencyContact with
                | some ep => { s2 with emergencyContact := mergeEmergency s.emergencyContact ep }
                | none => s2
      (.ok s3, { db with students := replaceStudent db.students s.sid s3 })

/-! ## GET /api/admin/students — list with filters -/

/-- Substring test on character lists. -/
def containsSub (needle : List Char) : List Char → Bool
  | [] => needle.isEmpty
  | c :: t => needle.isPrefixOf (c :: t) || containsSub needle t

/-- Case-insensitive substring containment: models `$regex: pat,
$options: 'i'` for the literal (metacharacter-free) patterns exercised
here. -/
def ciContains (pat hay : String) : Bool :=
  containsSub (pat.data.map Char.toLower) (hay.data.map Char.toLower)

/-- Value of a string field path on a student document as it is stored
in the students collection.  The `userId` field holds only the referenced
User's id (`populate` runs after the query executes), so the
`userId.firstName`, `userId.lastName` and `userId.email` paths of the
search filter resolve to no value on every document. -/
def studentPathField (s : Student) : String → Option String
  | "studentId" => some s.studentId
  | _ => none

/-- The `$or` search clause built by the route over the four paths
studentId, userId.firstName, userId.lastName, userId.email.  A `$regex`
clause over a path with no value matches no document. -/
def studentSearchMatch (s : Student) (srch : String) : Bool :=
  ((studentPathField s "studentId").map (ciContains srch)).getD false ||
  ((studentPathField s "userId.firstName").map (ciContains srch)).getD false ||
  ((studentPathField s "userId.lastName").map (ciContains srch)).getD false ||
  ((studentPathField s "userId.email").map (ciContains srch)).getD false

/-- The search predicate as the spec states it: case-insensitive
substring match on studentId or the owning User's firstName, lastName or
email, OR-combined.  This definition follows the spec's words, for
comparison with `studentSearchMatch`, which follows the source. -/
def specSearchMatch (db : DB) (s : Student) (srch : String) : Bool :=
  ciContains srch s.studentId ||
  (match findUserById db s.userId with
   | some u => ciContains srch u.firstName || ciContains srch u.lastName ||
               ciContains srch u.email
   | none => false)

/-- GET /api/admin/students query string. -/
structure ListQuery where
  page : Option Int := none
  limit : Option Int := none
  search : Option String := none
  department : Option String := none
  status : Option String := none
  year : Option Int := none
deriving Repr, DecidableEq

/-- The express-validator chain of GET /api/admin/students. -/
def listQueryValid (q : ListQuery) : Bool :=
  (match q.page with | some p => 1 ≤ p | none => true) &&
  (match q.limit with | some l => 1 ≤ l && l ≤ 100 | none => true) &&
  (match q.status with | some st => allowedStatuses.contains st | none => true) &&
  (match q.year with | some y => 1 ≤ y && y ≤ 5 | none => true)

/-- The complete filter document: optional search `$or`, department
substring, exact status, exact year. -/
def studentMatchesQuery (s : Student) (q : ListQuery) : Bool :=
  (match q.search with | some srch => studentSearchMatch s srch | none => true) &&
  (match q.department with | some d => ciContains d s.academicInfo.department | none => true) &&
  (match q.status with | some st => s.status == st | none => true) &&
  (match q.year with | some y => s.academicInfo.year == y | none => true)

inductive ListStudentsResult
  | validationFailed
  | ok (pageItems : List Student) (total : Nat)
deriving Repr, DecidableEq

/-- GET /api/admin/students — validates the query, filters, sorts by
createdAt descending, and paginates (`page || 1`, `limit || 10`). -/
def adminListStudents (db : DB) (q : ListQuery) : ListStudentsResult :=
  if !listQueryValid q then .validationFailed
  else
    let page := (q.page.getD 1).toNat
    let limit := (q.limit.getD 10).toNat
    let matched := (db.students.mergeSort
        (fun a b => decide (b.createdAt ≤ a.createdAt))).filter
        (fun s => studentMatchesQuery s q)
    .ok ((matched.drop ((page - 1) * limit)).take limit) matched.length

/-! ## POST /api/auth/login -/

inductive LoginResult
  | validationFailed
  | err (code : Nat) (message : String)
  | success (u : User)
deriving Repr, DecidableEq

/-- POST /api/auth/login.  `verify` is the external password-hash
comparison collaborator (`user.comparePassword`).  Error responses carry
their literal status code and message from the source. -/
def login (db : DB) (email password : String) (verify : String → String → Bool)
    (now : Int) : LoginResult × DB :=
  if !(validEmail email && password != "") then (.validationFailed, db)
  else match findUserByEmail db email with
  | none => (.err 401 "Invalid credentials", db)
  | some u =>
      if !u.isActive then
        (.err 401 "Account is deactivated. Please contact administrator.", db)
      else if !(verify password u.password) then
        (.err 401 "Invalid credentials", db)
      else
        (.success { u with lastLogin := some now },
         { db with users := replaceUser db.users u.uid { u with lastLogin := some now } })

/-! ## POST /api/auth/register -/

/-- The request's authorization header, after the JWT collaborator:
absent, present but failing verification, or verifying to a subject id. -/
inductive AuthHeader
  | missing
  | invalid
  | valid (uid : Nat)
deriving Repr, DecidableEq

structure RegisterPayload where
  username : String
  email : String
  password : String
  firstName : String
  lastName : String
  role : String
deriving Repr, DecidableEq

/-- The express-validator chain of POST /api/auth/register. -/
def registerValid (p : RegisterPayload) : Bool :=
  3 ≤ p.username.length && p.username.length ≤ 30 && isAlphanumStr p.username &&
  validEmail p.email &&
  6 ≤ p.password.length &&
  (p.firstName != "") && (p.lastName != "") &&
  (p.role == "admin" || p.role == "student")

inductive RegisterResult
  | validationFailed
  | authRequired
  | invalidToken
  | forbidden
  | conflict
  | saveError
  | created (isFirstAdmin : Bool) (u : User)
deriving Repr, DecidableEq

def mkRegisterUser (nu : Nat) (p : RegisterPayload) : User :=
  { uid := nu, username := p.username, email := p.email, password := p.password,
    firstName := p.firstName, lastName := p.lastName, role := p.role,
    isActive := true, lastLogin := none }

/-- The companion StudentRecord built by the registration route when
`studentData` is absent: the documented placeholder defaults
(`STU<timestamp>`, "N/A", "0000000000", gender other, year 1, semester 1,
address country India). -/
def defaultRegStudent (ns nu : Nat) (now : Int) : Student :=
  { sid := ns, userId := nu, studentId := "STU" ++ toString now,
    dateOfBirth := now, gender := "other", phone := "0000000000",
    address := { street := "N/A", city := "N/A", state := "N/A",
                 zipCode := "000000", country := "India" },
    academicInfo := { collegeName := "N/A", department := "N/A", course := "N/A",
                      specialization := "", year := 1, semester := 1, cgpa := 0,
                      totalCredits := 0, earnedCredits := 0, attendancePercentage := 0 },
    guardianInfo := { name := "N/A", relationship := "N/A",
                      phone := "0000000000", email := "na@example.com" },
    emergencyContact := { name := "N/A", relationship := "N/A", phone := "0000000000" },
    financialInfo := { feeStructure := "general", totalFees := 0, paidFees := 0,
                       scholarshipAmount := 0, lastPaymentDate := none },
    hostelInfo := { hostelName := "", roomNumber := "", hostelFees := 0,
                    isHostelite := false },
    status := "active", enrollmentDate := now, graduationDate := none,
    createdAt := now }

/-- POST /api/auth/register — validates; computes
`isFirstAdmin = (role == admin) AND (admin count == 0)`; requires an
admin bearer token unless first admin or student role; checks
username/email uniqueness; saves the User; for student role also saves a
companion StudentRecord (modelled for the studentData-absent case). -/
def register (db : DB) (p : RegisterPayload) (hdr : AuthHeader) (nu ns : Nat)
    (now : Int) : RegisterResult × DB :=
  if !registerValid p then (.validationFailed, db)
  else
    let isFirstAdmin := p.role == "admin" && adminCount db == 0
    let authFailure : Option RegisterResult :=
      if !isFirstAdmin && p.role != "student" then
        match hdr with
        | .missing => some .authRequired
        | .invalid => some .invalidToken
        | .valid i =>
            match findUserById db i with
            | none => some .forbidden
            | some cu => if cu.role != "admin" then some .forbidden else none
      else none
    match authFailure with
    | some r => (r, db)
    | none =>
        if db.users.any (fun u => u.email == p.email || u.username == p.username) then
          (.conflict, db)
        else
          let u := mkRegisterUser nu p
          let db1 : DB := { db with users := u :: db.users }
          if p.role == "student" then
            let s := defaultRegStudent ns nu now
            if studentSchemaValid s then
              (.created isFirstAdmin u, { db1 with students := s :: db1.students })
            else (.saveError, db1)
          else (.created isFirstAdmin u, db1)

/-! ## Concrete records, stores and payloads used by the theorems -/

/-! ### Concrete store used by counterexamples and witnesses -/

def adminUser : User :=
  { uid := 0, username := "sysadmin", email := "admin@college.com",
    password := "admin123", firstName := "System", lastName := "Administrator",
    role := "admin", isActive := true, lastLogin := none }

def aliceUser : User :=
  { uid := 1, username := "alice1", email := "alice@college.com",
    password := "secret1", firstName := "Alice", lastName := "Kumar",
    role := "student", isActive := true, lastLogin := none }

/-- A store with one admin and one student user owning `baseStudent`. -/
def cxDB : DB := { users := [adminUser, aliceUser], students := [baseStudent] }

/-- A store whose only user is one active admin. -/
def soloAdminDB : DB := { users := [adminUser], students := [] }

def inactiveAdmin : User :=
  { uid := 2, username := "oldadmin", email := "old@college.com",
    password := "admin456", firstName := "Old", lastName := "Admin",
    role := "admin", isActive := false, lastLogin := none }

/-- A store with one active admin and one deactivated admin. -/
def twoAdminDB : DB := { users := [adminUser, inactiveAdmin], students := [] }

/-- A creation payload that satisfies every rule of the route's
validation chain — which has no rule for `academicInfo.cgpa` — while its
cgpa of 11 violates the student schema's bound of 10. -/
def badCgpaPayload : CreateStudentPayload :=
  { username := "bobstudent", email := "bob@college.com", password := "secret1",
    firstName := "Bob", lastName := "Iyer", studentId := "STU2",
    dateOfBirth := 0, gender := "male", phone := "9876543213",
    address := { street := "2 Main St", city := "Vellore", state := "TN",
                 zipCode := "632001" },
    academicInfo := { collegeName := "VDCET", department := "CSE", course := "BTech",
                      specialization := "", year := 1, semester := 1, cgpa := 11,
                      totalCredits := 0, earnedCredits := 0, attendancePercentage := 0 },
    guardianInfo := { name := "G", relationship := "father",
                      phone := "9876543214", email := "g2@example.com" },
    emergencyContact := { name := "E", relationship := "uncle",
                          phone := "9876543215" } }

/-- The record written on a transition into graduated: status set and
graduationDate stamped with the transition moment. -/
def gradedAt (s : Student) (now : Int) : Student :=
  { s with status := "graduated", graduationDate := some now }

/-- The record written by PUT /api/student/profile for a payload carrying
address and emergencyContact patches. -/
def mergedOwn (s : Student) (ap : AddressPatch) (ep : EmergencyPatch) : Student :=
  { s with address := mergeAddress s.address ap
           emergencyContact := mergeEmergency s.emergencyContact ep }

def regAdminPayload : RegisterPayload :=
  { username := "firstadmin", email := "boss@college.com", password := "secret9",
    firstName := "Boss", lastName := "Admin", role := "admin" }

def regStudentPayload : RegisterPayload :=
  { username := "stud3", email := "s3@college.com", password := "secret3",
    firstName := "Stu", lastName := "Dent", role := "student" }

def emptyDB : DB := { users := [], students := [] }

/-- A status the API's whitelist admits. -/
def statusOK (s : Student) : Bool := allowedStatuses.contains s.status

/-- Every stored student carries a whitelisted status. -/
def statusInvariant (db : DB) : Bool := db.students.all statusOK

/-! ## Theorems settling the claims -/

/-- Claim C1: the fee-structure totals.  The non-hostelite worked example
does hold on the code (balance 25000), but the claimed formula
`totalFees = (totalFees||40000) + (isHostelite ? hostelFees||15000 : 0)`
does not: for a hostelite with hostelFees absent, the code's "Total
Fees:" row adds `hostelFees || 0`, producing 40000 where the claimed
formula (and the code's own "Hostel Fees:" subtotal row, which prints
15000 on the same document) yields 55000. -/
theorem C1_fee_total_uses_zero_hostel_default :
    feeBalance feeExampleStudent = 25000 ∧
    specBalance feeExampleStudent = 25000 ∧
    feeTotalFees hosteliteStudent = 40000 ∧
    feeHostelSubtotal hosteliteStudent = 15000 ∧
    specTotalFees hosteliteStudent = 55000 ∧
    feeTotalFees hosteliteStudent ≠ specTotalFees hosteliteStudent := by
  decide

/-! ### Helper lemmas about lookups and removals -/

theorem find?_eq_none_of_key_not_mem {α : Type} (f : α → Nat) (l : List α) (j : Nat)
    (h : j ∉ l.map f) : l.find? (fun x => f x == j) = none := by
  induction l with
  | nil => rfl
  | cons a t ih =>
      simp only [List.map_cons, List.mem_cons, not_or] at h
      rw [List.find?]
      have hb : (f a == j) = false := by
        simp only [beq_eq_false_iff_ne, ne_eq]
        exact fun he => h.1 he.symm
      rw [hb]
      exact ih h.2

theorem find?_removeUserById (l : List User) (j : Nat)
    (h : (l.map User.uid).Nodup) :
    (removeUserById l j).find? (fun u => u.uid == j) = none := by
  induction l with
  | nil => rfl
  | cons u t ih =>
      simp only [List.map_cons, List.nodup_cons] at h
      rw [removeUserById]
      by_cases hb : u.uid = j
      · simp only [hb, beq_self_eq_true, if_true]
        exact find?_eq_none_of_key_not_mem User.uid t j (hb ▸ h.1)
      · have hb' : (u.uid == j) = false := by simpa using hb
        rw [hb', if_neg (by simp)]
        rw [List.find?, hb']
        exact ih h.2

theorem find?_removeStudentById (l : List Student) (j : Nat)
    (h : (l.map Student.sid).Nodup) :
    (removeStudentById l j).find? (fun s => s.sid == j) = none := by
  induction l with
  | nil => rfl
  | cons u t ih =>
      simp only [List.map_cons, List.nodup_cons] at h
      rw [removeStudentById]
      by_cases hb : u.sid = j
      · simp only [hb, beq_self_eq_true, if_true]
        exact find?_eq_none_of_key_not_mem Student.sid t j (hb ▸ h.1)
      · have hb' : (u.sid == j) = false := by simpa using hb
        rw [hb', if_neg (by simp)]
        rw [List.find?, hb']
        exact ih h.2

/-! ### Claim C2 -/

/-- Claim C2, counterexample: in a concrete store the owning User (uid 1)
is present before DELETE /api/admin/students/:id and gone afterwards, so
the operation does not leave the User entry unchanged. -/
theorem C2_counterexample :
    findUserById cxDB 1 = some aliceUser ∧
    (adminDeleteStudent cxDB 10).1 = .ok ∧
    findUserById (adminDeleteStudent cxDB 10).2 1 = none := by
  decide

/-- Claim C2, amended: DELETE /api/admin/students/:id removes the
StudentRecord and also deletes its owning User — after the operation
neither the student nor the User entry for student.userId can be found
(under the store's key-uniqueness). -/
theorem C2_delete_student_cascades (db : DB) (i : Nat) (s : Student)
    (hs : findStudentById db i = some s)
    (hu : (db.users.map User.uid).Nodup)
    (hsid : (db.students.map Student.sid).Nodup) :
    (adminDeleteStudent db i).1 = .ok ∧
    findStudentById (adminDeleteStudent db i).2 i = none ∧
    findUserById (adminDeleteStudent db i).2 s.userId = none := by
  unfold adminDeleteStudent
  rw [hs]
  refine ⟨rfl, ?_, ?_⟩
  · exact find?_removeStudentById db.students i hsid
  · exact find?_removeUserById db.users s.userId hu

/-- Claim C2, witness for the amended theorem at the concrete store. -/
theorem C2_delete_student_cascades_witness :
    (adminDeleteStudent cxDB 10).1 = .ok ∧
    findStudentById (adminDeleteStudent cxDB 10).2 10 = none ∧
    findUserById (adminDeleteStudent cxDB 10).2 1 = none := by
  have h := C2_delete_student_cascades cxDB 10 baseStudent (by decide)
    (by decide) (by decide)
  exact ⟨h.1, h.2.1, h.2.2⟩

/-! ### Claim C3 -/

/-- Claim C3, counterexample: the active-admin invariant is not preserved
by every operation.  (i) With a single active admin, PUT
/api/admin/users/:id with isActive=false succeeds and leaves zero active
admins.  (ii) The delete guard counts all admins regardless of isActive:
with one active and one deactivated admin, deleting the active one
succeeds and leaves zero active admins. -/
theorem C3_counterexample :
    (activeAdminCount soloAdminDB = 1 ∧
     (adminUpdateUser soloAdminDB 0 { isActive := some false }).1 =
       .ok { adminUser with isActive := false } ∧
     activeAdminCount (adminUpdateUser soloAdminDB 0 { isActive := some false }).2 = 0) ∧
    (activeAdminCount twoAdminDB = 1 ∧
     (adminDeleteUser twoAdminDB 0).1 = .ok ∧
     activeAdminCount (adminDeleteUser twoAdminDB 0).2 = 0) := by
  decide

/-- Claim C3, amended: the delete route alone guards admins, and it does
so by total admin count regardless of isActive: deleting a user of role
admin fails (store unchanged) exactly when at most one admin user exists,
and succeeds (removing the user) otherwise; the user-update route applies
an isActive change with no admin-count condition at all. -/
theorem C3_last_admin_guard (db : DB) (i : Nat) (u : User)
    (hu : findUserById db i = some u) (hrole : u.role = "admin") :
    (adminCount db ≤ 1 → adminDeleteUser db i = (.lastAdmin, db)) ∧
    (¬ adminCount db ≤ 1 → adminDeleteUser db i =
        (.ok, { db with users := removeUserById db.users i })) ∧
    (∀ b, (adminUpdateUser db i { isActive := some b }).1 =
        .ok { u with isActive := b }) := by
  refine ⟨?_, ?_, ?_⟩
  · intro h
    unfold adminDeleteUser
    rw [hu]
    simp [hrole, h]
  · intro h
    unfold adminDeleteUser
    rw [hu]
    simp [hrole, h]
  · intro b
    unfold adminUpdateUser
    rw [hu]
    simp [userUpdateValid]

/-- Claim C3, witness for the amended theorem: sole-admin deletion is
refused and sole-admin deactivation goes through unguarded. -/
theorem C3_last_admin_guard_witness :
    adminDeleteUser soloAdminDB 0 = (.lastAdmin, soloAdminDB) ∧
    (adminUpdateUser soloAdminDB 0 { isActive := some false }).1 =
      .ok { adminUser with isActive := false } := by
  have h := C3_last_admin_guard soloAdminDB 0 adminUser (by decide) rfl
  exact ⟨h.1 (by decide), h.2.2 false⟩

/-! ### Claim C4 -/

/-- Claim C4, counterexample: a route-valid payload whose student save
fails on schema validation (cgpa 11) leaves the freshly created User in
the store with no StudentRecord — the two writes are not one
transactional unit. -/
theorem C4_counterexample :
    createRouteValid badCgpaPayload = true ∧
    (adminCreateStudent cxDB badCgpaPayload 5 20 0).1 = .saveError ∧
    findUserByEmail (adminCreateStudent cxDB badCgpaPayload 5 20 0).2
      "bob@college.com" = some (mkCreateUser 5 badCgpaPayload) ∧
    (adminCreateStudent cxDB badCgpaPayload 5 20 0).2.students = cxDB.students := by
  decide

/-- Claim C4, amended: both uniqueness checks (and the validation chain)
do run before the User write — any validation or conflict outcome leaves
the store unchanged — but the User and StudentRecord writes are not a
transactional unit: when the StudentRecord save fails after the checks,
the route answers saveError with the created User already persisted and
no StudentRecord written. -/
theorem C4_create_not_transactional (db : DB) (p : CreateStudentPayload)
    (nu ns : Nat) (now : Int)
    (hv : createRouteValid p = true)
    (hu : db.users.any (fun u => u.email == p.email || u.username == p.username) = false)
    (hs : db.students.any (fun s => s.studentId == p.studentId) = false)
    (hbad : studentSchemaValid (mkCreateStudent ns nu p now) = false) :
    adminCreateStudent db p nu ns now =
      (.saveError, { db with users := mkCreateUser nu p :: db.users }) ∧
    (∀ db2 q nu2 ns2 now2,
        ((adminCreateStudent db2 q nu2 ns2 now2).1 = .validationFailed ∨
         (adminCreateStudent db2 q nu2 ns2 now2).1 = .userConflict ∨
         (adminCreateStudent db2 q nu2 ns2 now2).1 = .studentIdConflict) →
        (adminCreateStudent db2 q nu2 ns2 now2).2 = db2) := by
  constructor
  · simp [adminCreateStudent, hv, hu, hs, hbad]
  · intro db2 q nu2 ns2 now2 h
    cases hcv : createRouteValid q with
    | false => simp [adminCreateStudent, hcv]
    | true =>
        cases hany : db2.users.any
            (fun u => u.email == q.email || u.username == q.username) with
        | true => simp [adminCreateStudent, hcv, hany]
        | false =>
            cases hany2 : db2.students.any (fun s => s.studentId == q.studentId) with
            | true => simp [adminCreateStudent, hcv, hany, hany2]
            | false =>
                cases hsv : studentSchemaValid (mkCreateStudent ns2 nu2 q now2) with
                | true =>
                    exfalso
                    simp [adminCreateStudent, hcv, hany, hany2, hsv] at h
                | false =>
                    exfalso
                    simp [adminCreateStudent, hcv, hany, hany2, hsv] at h

/-- Claim C4, witness for the amended theorem at the concrete payload. -/
theorem C4_create_not_transactional_witness :
    adminCreateStudent cxDB badCgpaPayload 5 20 0 =
      (.saveError, { cxDB with users := mkCreateUser 5 badCgpaPayload :: cxDB.users }) := by
  have h := C4_create_not_transactional cxDB badCgpaPayload 5 20 0
    (by decide) (by decide) (by decide) (by decide)
  exact h.1

/-! ### Claim C5 -/

/-- Claim C5: searching for "alice" — a case-insensitive substring of the
owning User's firstName "Alice" — returns no students, because the
route's `$or` clauses on userId.firstName / userId.lastName / userId.email
address paths that hold no value in the students collection (populate
runs only after the query); only the studentId clause can ever match.
The spec's OR-of-four-fields predicate says the student should be
returned. -/
theorem C5_search_ignores_user_fields :
    adminListStudents cxDB { search := some "alice" } = .ok [] 0 ∧
    specSearchMatch cxDB baseStudent "alice" = true ∧
    studentSearchMatch baseStudent "alice" = false := by
  refine ⟨?_, by decide, by decide⟩
  have hms : cxDB.students.mergeSort
      (fun a b => decide (b.createdAt ≤ a.createdAt)) = [baseStudent] :=
    List.mergeSort_singleton baseStudent
  have hnm : studentMatchesQuery baseStudent { search := some "alice" } = false := by
    decide
  have hlv : listQueryValid { search := some "alice" } = true := by decide
  simp [adminListStudents, hms, hnm, hlv, List.filter]

/-! ### Claim C6 -/

/-- Claim C6: on both PUT /api/admin/students/:id/status and PUT
/api/admin/students/:id, setting status to graduated stamps
graduationDate with the transition moment exactly when the prior status
was not graduated; re-setting graduated on an already-graduated record
leaves the record (and in particular graduationDate) unchanged. -/
theorem C6_graduation_stamp (db : DB) (i : Nat) (s : Student) (now : Int)
    (hs : findStudentById db i = some s) :
    (s.status ≠ "graduated" →
       adminSetStatus db i "graduated" now =
         (.ok (gradedAt s now),
          { db with students := replaceStudent db.students i (gradedAt s now) })) ∧
    (s.status = "graduated" →
       adminSetStatus db i "graduated" now =
         (.ok s, { db with students := replaceStudent db.students i s })) ∧
    (s.status ≠ "graduated" →
       adminUpdateStudent db i { status := some "graduated" } now =
         (.ok (gradedAt s now),
          { db with students := replaceStudent db.students i (gradedAt s now) })) ∧
    (s.status = "graduated" →
       adminUpdateStudent db i { status := some "graduated" } now =
         (.ok s, { db with students := replaceStudent db.students i s })) := by
  have hallow : allowedStatuses.contains "graduated" = true := by decide
  have hval : updateStudentValid { status := some "graduated" } = true := by decide
  refine ⟨?_, ?_, ?_, ?_⟩
  · intro h
    have hb : (s.status != "graduated") = true := by simpa using h
    simp [adminSetStatus, hs, hallow, hb, gradedAt, allowedStatuses]
  · intro h
    have hb : (s.status != "graduated") = false := by simpa using h
    have hrec : { s with status := "graduated" } = s := by
      cases s
      simp_all
    simp [adminSetStatus, hs, hallow, hb, hrec, allowedStatuses]
  · intro h
    have hb : (s.status != "graduated") = true := by simpa using h
    simp [adminUpdateStudent, hs, hval, hb, gradedAt, allowedStatuses]
  · intro h
    have hb : (s.status != "graduated") = false := by simpa using h
    have hrec : { s with status := "graduated" } = s := by
      cases s
      simp_all
    simp [adminUpdateStudent, hs, hval, hb, hrec, allowedStatuses]

/-- Claim C6, witness: graduating the concrete active student stamps the
date on both endpoints. -/
theorem C6_graduation_stamp_witness :
    adminSetStatus cxDB 10 "graduated" 77 =
      (.ok (gradedAt baseStudent 77),
       { cxDB with students := replaceStudent cxDB.students 10 (gradedAt baseStudent 77) }) ∧
    adminUpdateStudent cxDB 10 { status := some "graduated" } 77 =
      (.ok (gradedAt baseStudent 77),
       { cxDB with students := replaceStudent cxDB.students 10 (gradedAt baseStudent 77) }) := by
  have h := C6_graduation_stamp cxDB 10 baseStudent 77 (by decide)
  exact ⟨h.1 (by decide), h.2.2.1 (by decide)⟩

/-! ### Claim C7 -/

/-- Claim C7: updateOwnProfile shallow-merges partial nested address and
emergencyContact payloads onto the stored nested objects — supplied
subfields overwrite, every unsupplied subfield keeps its stored value,
and the rest of the record is untouched. -/
theorem C7_own_profile_shallow_merge (db : DB) (uid : Nat) (s : Student)
    (ap : AddressPatch) (ep : EmergencyPatch)
    (hs : findStudentByUserId db uid = some s)
    (hv : ownProfileValid { address := some ap, emergencyContact := some ep } = true) :
    updateOwnProfile db uid { address := some ap, emergencyContact := some ep } =
      (.ok (mergedOwn s ap ep),
       { db with students := replaceStudent db.students s.sid (mergedOwn s ap ep) }) ∧
    (∀ x, ap.city = some x → (mergedOwn s ap ep).address.city = x) ∧
    (ap.street = none → (mergedOwn s ap ep).address.street = s.address.street) ∧
    (ap.state = none → (mergedOwn s ap ep).address.state = s.address.state) ∧
    (ap.zipCode = none → (mergedOwn s ap ep).address.zipCode = s.address.zipCode) ∧
    (ap.country = none → (mergedOwn s ap ep).address.country = s.address.country) ∧
    (ep.name = none →
       (mergedOwn s ap ep).emergencyContact.name = s.emergencyContact.name) ∧
    (ep.relationship = none →
       (mergedOwn s ap ep).emergencyContact.relationship = s.emergencyContact.relationship) ∧
    (ep.phone = none →
       (mergedOwn s ap ep).emergencyContact.phone = s.emergencyContact.phone) ∧
    (mergedOwn s ap ep).phone = s.phone ∧
    (mergedOwn s ap ep).academicInfo = s.academicInfo ∧
    (mergedOwn s ap ep).status = s.status := by
  refine ⟨?_, ?_, ?_, ?_, ?_, ?_, ?_, ?_, ?_, rfl, rfl, rfl⟩
  · simp [updateOwnProfile, hs, hv, mergedOwn]
  · intro x hx
    simp [mergedOwn, mergeAddress, hx]
  all_goals
    intro hn
    simp [mergedOwn, mergeAddress, mergeEmergency, hn]

/-- Claim C7, witness: patching only the city of the concrete student
sets the city to "X" and leaves the other address subfields unchanged. -/
theorem C7_own_profile_shallow_merge_witness :
    updateOwnProfile cxDB 1 { address := some { city := some "X" },
                              emergencyContact := some {} } =
      (.ok (mergedOwn baseStudent { city := some "X" } {}),
       { cxDB with students := replaceStudent cxDB.students 10 (mergedOwn baseStudent { city := some "X" } {}) }) ∧
    (mergedOwn baseStudent { city := some "X" } {}).address.city = "X" ∧
    (mergedOwn baseStudent { city := some "X" } {}).address.street = "1 Main St" ∧
    (mergedOwn baseStudent { city := some "X" } {}).address.state = "TN" ∧
    (mergedOwn baseStudent { city := some "X" } {}).address.zipCode = "632001" ∧
    (mergedOwn baseStudent { city := some "X" } {}).address.country = "India" := by
  have h := C7_own_profile_shallow_merge cxDB 1 baseStudent { city := some "X" } {}
    (by decide) (by decide)
  exact ⟨h.1, by decide, by decide, by decide, by decide, by decide⟩

/-! ### Claim C8 -/

/-- Claim C8: a login attempt with an email matching no user and a login
attempt with an existing active user's email but a password the verifier
rejects produce identical responses — the same 401 status and the same
"Invalid credentials" message — and neither changes the store, so the
two failure causes cannot be told apart. -/
theorem C8_login_uniform_error (db : DB) (e1 e2 p1 p2 : String)
    (verify : String → String → Bool) (n1 n2 : Int) (u : User)
    (hv1 : validEmail e1 = true) (hp1 : (p1 != "") = true)
    (hv2 : validEmail e2 = true) (hp2 : (p2 != "") = true)
    (h1 : findUserByEmail db e1 = none)
    (h2 : findUserByEmail db e2 = some u)
    (hact : u.isActive = true)
    (hbad : verify p2 u.password = false) :
    (login db e1 p1 verify n1).1 = (login db e2 p2 verify n2).1 ∧
    (login db e1 p1 verify n1).1 = .err 401 "Invalid credentials" ∧
    (login db e1 p1 verify n1).2 = db ∧
    (login db e2 p2 verify n2).2 = db := by
  refine ⟨?_, ?_, ?_, ?_⟩ <;>
    simp [login, hv1, hv2, hp1, hp2, h1, h2, hact, hbad]

/-- Claim C8, witness: unknown email versus Alice's email with a wrong
password, with the verifier modelled as comparison against the stored
secret. -/
theorem C8_login_uniform_error_witness :
    (login cxDB "ghost@college.com" "whatever1" (fun a b => a == b) 5).1 =
      (login cxDB "alice@college.com" "wrongpass" (fun a b => a == b) 6).1 ∧
    (login cxDB "ghost@college.com" "whatever1" (fun a b => a == b) 5).1 =
      .err 401 "Invalid credentials" := by
  have h := C8_login_uniform_error cxDB "ghost@college.com" "alice@college.com"
    "whatever1" "wrongpass" (fun a b => a == b) 5 6 aliceUser
    (by decide) (by decide) (by decide) (by decide)
    (by decide) (by decide) (by decide) (by decide)
  exact ⟨h.1, h.2.1⟩

/-! ### Claim C9 -/

/-- Claim C9: with zero existing admins, an admin registration without
any auth token succeeds and reports isFirstAdmin = true; once an admin
exists, an admin registration without a token fails 401 before touching
the store; and for role student the authorization header is never
consulted at all. -/
theorem C9_first_admin_bootstrap :
    (∀ db p nu ns now, registerValid p = true → p.role = "admin" →
       adminCount db = 0 →
       db.users.any (fun u => u.email == p.email || u.username == p.username) = false →
       register db p .missing nu ns now =
         (.created true (mkRegisterUser nu p),
          { db with users := mkRegisterUser nu p :: db.users })) ∧
    (∀ db p nu ns now, registerValid p = true → p.role = "admin" →
       adminCount db ≠ 0 →
       register db p .missing nu ns now = (.authRequired, db)) ∧
    (∀ db p hdr hdr2 nu ns now, p.role = "student" →
       register db p hdr nu ns now = register db p hdr2 nu ns now) := by
  refine ⟨?_, ?_, ?_⟩
  · intro db p nu ns now hv hrole hcnt hconf
    simp [register, hv, hrole, hcnt, hconf]
  · intro db p nu ns now hv hrole hcnt
    simp [register, hv, hrole, hcnt]
  · intro db p hdr hdr2 nu ns now hrole
    cases hdr <;> cases hdr2 <;> simp [register, hrole]

/-- Claim C9, witness: bootstrap on the empty store succeeds with
isFirstAdmin, the same tokenless call fails 401 once an admin exists, and
a student registration gives the same answer for a missing and an invalid
header. -/
theorem C9_first_admin_bootstrap_witness :
    register emptyDB regAdminPayload .missing 0 0 0 =
      (.created true (mkRegisterUser 0 regAdminPayload),
       { emptyDB with users := [mkRegisterUser 0 regAdminPayload] }) ∧
    register soloAdminDB regAdminPayload .missing 3 3 1 = (.authRequired, soloAdminDB) ∧
    register cxDB regStudentPayload .missing 4 30 2 =
      register cxDB regStudentPayload .invalid 4 30 2 := by
  have h := C9_first_admin_bootstrap
  exact ⟨h.1 emptyDB regAdminPayload 0 0 0 (by decide) rfl (by decide) (by decide),
         h.2.1 soloAdminDB regAdminPayload 3 3 1 (by decide) rfl (by decide),
         h.2.2 cxDB regStudentPayload .missing .invalid 4 30 2 rfl⟩

/-! ### Claim C10 -/

theorem all_replaceStudent (P : Student → Bool) (l : List Student) (i : Nat)
    (v : Student) (hl : l.all P = true) (hv : P v = true) :
    (replaceStudent l i v).all P = true := by
  induction l with
  | nil => rfl
  | cons a t ih =>
      simp only [List.all_cons, Bool.and_eq_true] at hl
      rw [replaceStudent]
      by_cases hb : a.sid = i
      · have hbt : (a.sid == i) = true := by simpa using hb
        rw [if_pos hbt]
        simp only [List.all_cons, Bool.and_eq_true]
        exact ⟨hv, hl.2⟩
      · have hbf : (a.sid == i) = false := by simpa using hb
        rw [if_neg (by simp [hbf])]
        simp only [List.all_cons, Bool.and_eq_true]
        exact ⟨hl.1, ih hl.2⟩

theorem all_removeStudentById (P : Student → Bool) (l : List Student) (i : Nat)
    (hl : l.all P = true) : (removeStudentById l i).all P = true := by
  induction l with
  | nil => rfl
  | cons a t ih =>
      simp only [List.all_cons, Bool.and_eq_true] at hl
      rw [removeStudentById]
      by_cases hb : a.sid = i
      · have hbt : (a.sid == i) = true := by simpa using hb
        rw [if_pos hbt]
        exact hl.2
      · have hbf : (a.sid == i) = false := by simpa using hb
        rw [if_neg (by simp [hbf])]
        simp only [List.all_cons, Bool.and_eq_true]
        exact ⟨hl.1, ih hl.2⟩

theorem all_removeStudentByUserId (P : Student → Bool) (l : List Student) (i : Nat)
    (hl : l.all P = true) : (removeStudentByUserId l i).all P = true := by
  induction l with
  | nil => rfl
  | cons a t ih =>
      simp only [List.all_cons, Bool.and_eq_true] at hl
      rw [removeStudentByUserId]
      by_cases hb : a.userId = i
      · have hbt : (a.userId == i) = true := by simpa using hb
        rw [if_pos hbt]
        exact hl.2
      · have hbf : (a.userId == i) = false := by simpa using hb
        rw [if_neg (by simp [hbf])]
        simp only [List.all_cons, Bool.and_eq_true]
        exact ⟨hl.1, ih hl.2⟩

theorem statusInv_setStatus (db : DB) (i : Nat) (st : String) (now : Int)
    (h : statusInvariant db = true) :
    statusInvariant (adminSetStatus db i st now).2 = true := by
  unfold adminSetStatus
  cases hc : allowedStatuses.contains st with
  | false => simpa [hc] using h
  | true =>
      cases hf : findStudentById db i with
      | none => simpa [hc, hf] using h
      | some s =>
          simp only [hc, hf, Bool.not_true, Bool.false_eq_true, if_false]
          unfold statusInvariant at h ⊢
          apply all_replaceStudent _ _ _ _ h
          split <;> simp_all [statusOK]

theorem statusInv_updateStudent (db : DB) (i : Nat) (p : UpdateStudentPayload)
    (now : Int) (h : statusInvariant db = true) :
    statusInvariant (adminUpdateStudent db i p now).2 = true := by
  unfold adminUpdateStudent
  cases hval : updateStudentValid p with
  | false => simpa using h
  | true =>
      cases hf : findStudentById db i with
      | none => simpa using h
      | some s =>
          have hmem : s ∈ db.students := List.mem_of_find?_eq_some hf
          have hsOK : statusOK s = true :=
            List.all_eq_true.mp h s hmem
          obtain ⟨ph, ad, ai, gi, ec, pst⟩ := p
          simp only [updateStudentValid, Bool.and_eq_true] at hval
          simp only [hf]
          unfold statusInvariant at h ⊢
          apply all_replaceStudent _ _ _ _ h
          cases ph <;> cases ad <;> cases ai <;> cases gi <;> cases ec <;>
            rcases pst with _ | st <;>
            simp_all [statusOK] <;>
            split <;> simp_all

theorem statusInv_createStudent (db : DB) (p : CreateStudentPayload) (nu ns : Nat)
    (now : Int) (h : statusInvariant db = true) :
    statusInvariant (adminCreateStudent db p nu ns now).2 = true := by
  unfold adminCreateStudent
  cases hcv : createRouteValid p with
  | false => simpa using h
  | true =>
      cases h1 : db.users.any (fun u => u.email == p.email || u.username == p.username) with
      | true => simpa using h
      | false =>
          cases h2 : db.students.any (fun s => s.studentId == p.studentId) with
          | true => simpa using h
          | false =>
              simp only [Bool.not_true, Bool.false_eq_true, if_false]
              split
              · simp only [statusInvariant, List.all_cons, Bool.and_eq_true]
                exact ⟨rfl, h⟩
              · simpa [statusInvariant] using h

theorem statusInv_register (db : DB) (p : RegisterPayload) (hdr : AuthHeader)
    (nu ns : Nat) (now : Int) (h : statusInvariant db = true) :
    statusInvariant (register db p hdr nu ns now).2 = true := by
  unfold register
  cases hv : registerValid p with
  | false => simpa using h
  | true =>
      simp only [Bool.not_true, Bool.false_eq_true, if_false]
      split
      · simpa using h
      · split
        · simpa using h
        · split
          · split
            · simp only [statusInvariant, List.all_cons, Bool.and_eq_true]
              exact ⟨rfl, h⟩
            · simpa [statusInvariant] using h
          · simpa [statusInvariant] using h

theorem statusInv_updateOwnProfile (db : DB) (uidc : Nat) (pr : OwnProfilePayload)
    (h : statusInvariant db = true) :
    statusInvariant (updateOwnProfile db uidc pr).2 = true := by
  unfold updateOwnProfile
  cases hval : ownProfileValid pr with
  | false => simpa using h
  | true =>
      cases hf : findStudentByUserId db uidc with
      | none => simpa using h
      | some s =>
          have hmem : s ∈ db.students := List.mem_of_find?_eq_some hf
          have hsOK : statusOK s = true := List.all_eq_true.mp h s hmem
          obtain ⟨ph, ad, ec⟩ := pr
          simp only [hf]
          unfold statusInvariant at h ⊢
          apply all_replaceStudent _ _ _ _ h
          cases ph <;> cases ad <;> cases ec <;> simp_all [statusOK]

theorem statusInv_deleteStudent (db : DB) (i : Nat)
    (h : statusInvariant db = true) :
    statusInvariant (adminDeleteStudent db i).2 = true := by
  unfold adminDeleteStudent
  cases hf : findStudentById db i with
  | none => simpa using h
  | some s =>
      simp only [statusInvariant] at h ⊢
      exact all_removeStudentById statusOK db.students i h

theorem statusInv_deleteUser (db : DB) (i : Nat)
    (h : statusInvariant db = true) :
    statusInvariant (adminDeleteUser db i).2 = true := by
  unfold adminDeleteUser
  cases hf : findUserById db i with
  | none => simpa using h
  | some u =>
      dsimp only
      split
      · simpa using h
      · split
        · simp only [statusInvariant] at h ⊢
          exact all_removeStudentByUserId statusOK db.students i h
        · simpa [statusInvariant] using h

/-- Claim C10: every status-writing operation accepts only the four-value
whitelist — transferred and dropped are rejected with a validation error
that leaves the store untouched (and the list filter rejects them too) —
and the invariant "every stored student's status is whitelisted" is
preserved by all embedded operations, so no API path ever stores
transferred or dropped. -/
theorem C10_status_whitelist :
    (∀ db i now st, st = "transferred" ∨ st = "dropped" →
        adminSetStatus db i st now = (.validationFailed, db)) ∧
    (∀ db i now (p : UpdateStudentPayload) st, st = "transferred" ∨ st = "dropped" →
        p.status = some st →
        adminUpdateStudent db i p now = (.validationFailed, db)) ∧
    (∀ db (q : ListQuery) st, st = "transferred" ∨ st = "dropped" →
        q.status = some st →
        adminListStudents db q = .validationFailed) ∧
    (∀ db, statusInvariant db = true →
        (∀ i st now, statusInvariant (adminSetStatus db i st now).2 = true) ∧
        (∀ i p now, statusInvariant (adminUpdateStudent db i p now).2 = true) ∧
        (∀ p nu ns now, statusInvariant (adminCreateStudent db p nu ns now).2 = true) ∧
        (∀ p hdr nu ns now, statusInvariant (register db p hdr nu ns now).2 = true) ∧
        (∀ uidc pr, statusInvariant (updateOwnProfile db uidc pr).2 = true) ∧
        (∀ i, statusInvariant (adminDeleteStudent db i).2 = true) ∧
        (∀ i, statusInvariant (adminDeleteUser db i).2 = true)) := by
  refine ⟨?_, ?_, ?_, ?_⟩
  · intro db i now st hst
    have hc : allowedStatuses.contains st = false := by
      rcases hst with rfl | rfl <;> decide
    have hc' : st ∉ allowedStatuses := by
      rcases hst with rfl | rfl <;> decide
    simp [adminSetStatus, hc, hc']
  · intro db i now p st hst hp
    have hc : allowedStatuses.contains st = false := by
      rcases hst with rfl | rfl <;> decide
    have hc' : st ∉ allowedStatuses := by
      rcases hst with rfl | rfl <;> decide
    have hval : updateStudentValid p = false := by
      simp [updateStudentValid, hp, hc, hc']
    simp [adminUpdateStudent, hval]
  · intro db q st hst hq
    have hc : allowedStatuses.contains st = false := by
      rcases hst with rfl | rfl <;> decide
    have hc' : st ∉ allowedStatuses := by
      rcases hst with rfl | rfl <;> decide
    have hval : listQueryValid q = false := by
      simp [listQueryValid, hq, hc, hc']
    simp [adminListStudents, hval]
  · intro db h
    exact ⟨fun i st now => statusInv_setStatus db i st now h,
           fun i p now => statusInv_updateStudent db i p now h,
           fun p nu ns now => statusInv_createStudent db p nu ns now h,
           fun p hdr nu ns now => statusInv_register db p hdr nu ns now h,
           fun uidc pr => statusInv_updateOwnProfile db uidc pr h,
           fun i => statusInv_deleteStudent db i h,
           fun i => statusInv_deleteUser db i h⟩

/-- Claim C10, witness: transferred and dropped are rejected on the
concrete store, and a graduated transition keeps the invariant. -/
theorem C10_status_whitelist_witness :
    adminSetStatus cxDB 10 "transferred" 3 = (.validationFailed, cxDB) ∧
    adminUpdateStudent cxDB 10 { status := some "dropped" } 3 =
      (.validationFailed, cxDB) ∧
    adminListStudents cxDB { status := some "transferred" } = .validationFailed ∧
    statusInvariant (adminSetStatus cxDB 10 "graduated" 3).2 = true := by
  have h := C10_status_whitelist
  exact ⟨h.1 cxDB 10 3 "transferred" (Or.inl rfl),
         h.2.1 cxDB 10 3 { status := some "dropped" } "dropped" (Or.inr rfl) rfl,
         h.2.2.1 cxDB { status := some "transferred" } "transferred" (Or.inl rfl) rfl,
         (h.2.2.2 cxDB (by decide)).1 10 "graduated" 3⟩

end VDCET
